import Mathlib

/-!
Shallow embedding of the authentication backend's core logic
(credential & OTP lifecycle manager, identity resolver) and proofs of the
specification's claims about it.

Conventions of the embedding:
* The relational store is a list of `user` rows (`Store`); Prisma's
  `findUnique` becomes `List.find?`, `update where {..}` becomes a guarded
  map over the matching rows (failing with `none` exactly when Prisma would
  raise `P2025`), `create` appends a row with a fresh id.
* Timestamps are naturals counting milliseconds, matching JavaScript
  `Date` arithmetic (`Date.now() + 10 * 60 * 1000`).
* External collaborators (bcrypt, the mail transport, the secure random
  source) are parameters of the functions that consume them, so each claim
  quantifies over their behaviour.
-/

namespace AuthBackend

/-- The Prisma `user` row, with the columns the authentication core reads and
writes (`src/config/envConfig.ts` repository part, `src/config/passport.ts`).
Optional columns are `Option`-valued, mirroring nullable columns. -/
structure User where
  id : Nat
  name : String
  email : String
  password : Option String
  googleId : Option String
  provider : String
  profilePicture : Option String
  emailVerified : Bool
  resetOTP : Option String
  otpCreatedAt : Option Nat
  otpExpiresAt : Option Nat
  passwordUpdatedAt : Option Nat
  createdAt : Nat
  updatedAt : Nat
deriving DecidableEq, Repr

/-- The user table. -/
abbrev Store := List User

/-- Embeds `UserRepository.findByEmail`: `prisma.user.findUnique({ where: { email } })`. -/
def findByEmail (s : Store) (email : String) : Option User :=
  s.find? (fun u => u.email == email)

/-- Embeds `UserRepository.findByGoogleId`: `prisma.user.findUnique({ where: { googleId } })`. -/
def findByGoogleId (s : Store) (googleId : String) : Option User :=
  s.find? (fun u => u.googleId == some googleId)

/-- Embeds `prisma.user.update({ where: { email }, data })`: rewrites the row whose
email matches, and fails (Prisma error `P2025`, surfaced as `none`) when no
such row exists. -/
def updateWhereEmail (s : Store) (email : String) (f : User → User) : Option Store :=
  if (findByEmail s email).isSome then
    some (s.map fun v => if v.email == email then f v else v)
  else none

/-- Embeds `prisma.user.update({ where: { id }, data })` for an id taken from a row
just found in the store (the passport code only updates by the id of a row it
has just read, so the `P2025` branch is unreachable and the update is total). -/
def applyUpdateById (s : Store) (uid : Nat) (u' : User) : Store :=
  s.map fun v => if v.id == uid then u' else v

/-- The fixed OTP validity window: `10 * 60 * 1000` milliseconds
(`UserRepository.storeOTP`). -/
def otpWindowMs : Nat := 10 * 60 * 1000

/-- Embeds `UserRepository.storeOTP`: sets `resetOTP`, `otpCreatedAt := new Date()`,
`otpExpiresAt := new Date(Date.now() + 10 * 60 * 1000)`; returns `false`
(here `none`) when the user does not exist (`P2025`). -/
def storeOTP (s : Store) (email otp : String) (now : Nat) : Option Store :=
  updateWhereEmail s email (fun u =>
    { u with resetOTP := some otp, otpCreatedAt := some now,
             otpExpiresAt := some (now + otpWindowMs) })

/-- Embeds `UserRepository.clearOTP`: nulls `resetOTP`, `otpCreatedAt`,
`otpExpiresAt`; `none` when the user does not exist. -/
def clearOTP (s : Store) (email : String) : Option Store :=
  updateWhereEmail s email (fun u =>
    { u with resetOTP := none, otpCreatedAt := none, otpExpiresAt := none })

/-- Embeds `UserRepository.updatePassword`: sets `password` to the supplied hash and
`passwordUpdatedAt := new Date()`; `none` when the user does not exist. -/
def updatePassword (s : Store) (email hashedPassword : String) (now : Nat) : Option Store :=
  updateWhereEmail s email (fun u =>
    { u with password := some hashedPassword, passwordUpdatedAt := some now })

/-- The `{ valid, message }` result of `UserRepository.verifyOTP`. -/
structure OtpVerification where
  valid : Bool
  message : String
deriving DecidableEq, Repr

/-- Embeds `UserRepository.verifyOTP`: checks, in order, that the user exists, that a
`resetOTP` is stored, that the OTP is not expired
(`!user.otpExpiresAt || currentTime > user.otpExpiresAt`), and that the
stored code equals the submitted one (`user.resetOTP !== otp`).  The source
only performs a `findUnique`; it writes nothing, so the embedding is a pure
read of the store. -/
def verifyOTP (s : Store) (email otp : String) (now : Nat) : OtpVerification :=
  match findByEmail s email with
  | none => ⟨false, "User not found"⟩
  | some u =>
    match u.resetOTP with
    | none => ⟨false, "No OTP found. Please request a new one."⟩
    | some stored =>
      match u.otpExpiresAt with
      | none => ⟨false, "OTP has expired. Please request a new one."⟩
      | some expiresAt =>
        if expiresAt < now then ⟨false, "OTP has expired. Please request a new one."⟩
        else if stored != otp then ⟨false, "Invalid OTP code. Please check and try again."⟩
        else ⟨true, "OTP verified successfully"⟩

/-- A `{ success, message }` service response (the claims below only concern
these two caller-visible fields of the service results). -/
structure SimpleResponse where
  success : Bool
  message : String
deriving DecidableEq, Repr

/-- Embeds `AuthService.login`.  `bcryptCompare` stands for the external
`bcrypt.compare` collaborator.  The embedding keeps the caller-visible
`success` flag and `message` of each branch of the source. -/
def login (bcryptCompare : String → String → Bool) (s : Store)
    (email password : String) : SimpleResponse :=
  match findByEmail s email with
  | none => ⟨false, "Email or password is wrong"⟩
  | some u =>
    match u.password with
    | none => ⟨false, "Please sign in using Google OAuth"⟩
    | some stored =>
      if !bcryptCompare password stored then ⟨false, "Email or password is wrong"⟩
      else ⟨true, "Login successful!"⟩

/-- The `{ success, otp }` result of the external
`emailService.sendOTPEmail` collaborator, as read by
`AuthService.forgotPassword` (`emailResult.success && emailResult.otp`). -/
structure EmailResult where
  success : Bool
  otp : Option String
deriving DecidableEq, Repr

/-- JavaScript truthiness of an optional string: `undefined`, `null` and the
empty string are falsy. -/
def jsTruthy (o : Option String) : Bool :=
  match o with
  | none => false
  | some str => !str.isEmpty

/-- Embeds `AuthService.forgotPassword`.  `emailSvc email name` is the external
`emailService.sendOTPEmail(email, user.name)` collaborator.  Returns the
caller-visible `{ success, message }` response together with the store left
behind. -/
def forgotPassword (emailSvc : String → String → EmailResult) (s : Store)
    (email : String) (now : Nat) : SimpleResponse × Store :=
  match findByEmail s email with
  | none =>
    (⟨true, "If an account with this email exists, you will receive a password reset OTP shortly."⟩, s)
  | some u =>
    let emailResult := emailSvc email u.name
    if emailResult.success && jsTruthy emailResult.otp then
      match storeOTP s email (emailResult.otp.getD "") now with
      | none => (⟨false, "Failed to process password reset request"⟩, s)
      | some s' =>
        (⟨true, "If an account with this email exists, you will receive a password reset OTP shortly."⟩, s')
    else
      (⟨false, "Failed to send email. Please try again."⟩, s)

/-- Embeds `AuthService.resetPassword`, kept as the list of successive store states
the service produces (one entry per store write), together with the
caller-visible response.  `bcryptHash` stands for the external
`bcrypt.hash(newPassword, 10)` collaborator.  The source performs
`verifyOTP` (a read), then `updatePassword` and `clearOTP` as two separate
repository updates, ignoring the result of `clearOTP`. -/
def resetPasswordTrace (bcryptHash : String → String) (s : Store)
    (email otp newPassword : String) (now : Nat) : List Store × SimpleResponse :=
  let v := verifyOTP s email otp now
  if !v.valid then ([s], ⟨false, v.message⟩)
  else
    let hashed := bcryptHash newPassword
    match updatePassword s email hashed now with
    | none => ([s], ⟨false, "Failed to update password"⟩)
    | some s1 =>
      match clearOTP s1 email with
      | none =>
        ([s, s1], ⟨true, "Password has been reset successfully! You can now login with your new password."⟩)
      | some s2 =>
        ([s, s1, s2], ⟨true, "Password has been reset successfully! You can now login with your new password."⟩)

/-- Embeds `AuthService.emailExists`: `!!(await findByEmail(email))`, with the
`catch` branch returning `false`; a thrown storage error is modelled by the
`storageFault` flag. -/
def emailExists (storageFault : Bool) (s : Store) (email : String) : Bool :=
  if storageFault then false
  else (findByEmail s email).isSome

/-- A route registration of `features/auth/routes.ts`: HTTP method, path and
the middleware chain installed in front of the controller. -/
structure Route where
  method : String
  path : String
  middlewares : List String
deriving DecidableEq, Repr

/-- The route table of `features/auth/routes.ts` (the non-OAuth rows). -/
def authRoutes : List Route :=
  [⟨"POST", "/signup", ["validateSignup"]⟩,
   ⟨"POST", "/login", ["validateLogin"]⟩,
   ⟨"POST", "/forgot-password", ["validateForgotPassword"]⟩,
   ⟨"POST", "/reset-password", ["validateResetPassword"]⟩,
   ⟨"GET", "/users", ["authenticateToken", "requireAdmin"]⟩,
   ⟨"GET", "/profile", ["authenticateToken"]⟩,
   ⟨"GET", "/check-email", []⟩,
   ⟨"GET", "/health", []⟩]

/-! ### Identity resolver (`src/config/passport.ts`) -/

/-- The fields of the Google profile assertion that the resolver reads:
`profile.id`, `profile.displayName`, `profile.emails?.[0]?.value`,
`profile.photos?.[0]?.value`. -/
structure GoogleProfile where
  id : String
  displayName : String
  emails : List String
  photos : List String
deriving DecidableEq, Repr

/-- The `Express.User` shape produced by `mapDbUserToExpressUser`. -/
structure ExpressUser where
  id : Nat
  email : String
  name : String
  provider : Option String
deriving DecidableEq, Repr

/-- Embeds `mapDbUserToExpressUser`: the dynamic type guards on `id`, `email` and
`name` always pass in the typed embedding; `provider` is kept only when it is
the literal `local` or `google`. -/
def mapDbUserToExpressUser (u : User) : Option ExpressUser :=
  some { id := u.id, email := u.email, name := u.name,
         provider :=
           if u.provider == "local" || u.provider == "google" then some u.provider
           else none }

/-- The JavaScript `x || null` idiom on an optional string: the empty string
and a missing value both collapse to `null`. -/
def jsOrNull (o : Option String) : Option String :=
  match o with
  | none => none
  | some str => if str.isEmpty then none else some str

/-- A fresh autoincrement id for `prisma.user.create`. -/
def nextId (s : Store) : Nat :=
  s.foldr (fun u m => max u.id m) 0 + 1

/-- The row `prisma.user.create` inserts for a new federated account
(`password: null`, `provider: 'google'`, `emailVerified: true`). -/
def newGoogleUser (s : Store) (googleId email name : String)
    (photo : Option String) (now : Nat) : User :=
  { id := nextId s, name := name, email := email, password := none,
    googleId := some googleId, provider := "google",
    profilePicture := jsOrNull photo, emailVerified := true,
    resetOTP := none, otpCreatedAt := none, otpExpiresAt := none,
    passwordUpdatedAt := none, createdAt := now, updatedAt := now }

/-- The verify callback of the registered `GoogleStrategy`
(`passport.ts`): `Except.error` is `done(error, false)`, `Except.ok` is
`done(null, mappedUser || false)` (`false` modelled as `none`).
`configured` is the `clientId && clientSecret` guard of the
temporary-credentials registration. -/
def googleVerify (configured : Bool) (s : Store) (profile : GoogleProfile)
    (now : Nat) : Except String (Option ExpressUser) × Store :=
  if !configured then
    (.error "Google OAuth not properly configured. Please set GOOGLE_CLIENT_ID and GOOGLE_CLIENT_SECRET in your .env file", s)
  else
    match profile.emails.head? with
    | none => (.error "Missing required Google profile information", s)
    | some email =>
      if email.isEmpty || profile.id.isEmpty then
        (.error "Missing required Google profile information", s)
      else
        match findByGoogleId s profile.id with
        | some u =>
          let u' := { u with name := profile.displayName,
                             profilePicture := jsOrNull profile.photos.head?,
                             emailVerified := true, updatedAt := now }
          (.ok (mapDbUserToExpressUser u'), applyUpdateById s u.id u')
        | none =>
          match findByEmail s email with
          | some u =>
            let u' := { u with googleId := some profile.id, provider := "google",
                               profilePicture := jsOrNull profile.photos.head?,
                               emailVerified := true, updatedAt := now }
            (.ok (mapDbUserToExpressUser u'), applyUpdateById s u.id u')
          | none =>
            let u := newGoogleUser s profile.id email profile.displayName
                       profile.photos.head? now
            (.ok (mapDbUserToExpressUser u), s ++ [u])

/-- The exported `findOrCreateGoogleUser` utility of `passport.ts`, used by
the `POST /google/success` route.  `Except.error` is the thrown
`Error('Missing required Google profile information')` (raised before any
store access).  Unlike the strategy callback, a row found by `googleId` is
returned without any refresh, and the email-link update does not set
`updatedAt`. -/
def findOrCreateGoogleUser (s : Store) (profile : GoogleProfile)
    (now : Nat) : Except String (Option ExpressUser) × Store :=
  match profile.emails.head? with
  | none => (.error "Missing required Google profile information", s)
  | some email =>
    if email.isEmpty || profile.id.isEmpty then
      (.error "Missing required Google profile information", s)
    else
      match findByGoogleId s profile.id with
      | some u => (.ok (mapDbUserToExpressUser u), s)
      | none =>
        match findByEmail s email with
        | some u =>
          let u' := { u with googleId := some profile.id, provider := "google",
                             profilePicture := jsOrNull profile.photos.head?,
                             emailVerified := true }
          (.ok (mapDbUserToExpressUser u'), applyUpdateById s u.id u')
        | none =>
          let u := newGoogleUser s profile.id email profile.displayName
                     profile.photos.head? now
          (.ok (mapDbUserToExpressUser u), s ++ [u])

/-! ### OTP generator (`src/utils/emailService.ts`) -/

/-- The lower bound passed to `crypto.randomInt` in
`EmailService.generateOTP`. -/
def randomIntLow : Nat := 100000

/-- The upper bound passed to `crypto.randomInt` in
`EmailService.generateOTP`.  Node's `crypto.randomInt(min, max)` draws
uniformly from `min` (inclusive) to `max` (exclusive). -/
def randomIntHigh : Nat := 999999

/-- JavaScript `Number.prototype.toString()` in base 10 on a natural
number: the decimal digit string, with no leading zeroes. -/
def natToDecString (n : Nat) : String :=
  if n = 0 then "0" else String.mk ((Nat.digits 10 n).reverse.map Nat.digitChar)

/-- Embeds `EmailService.generateOTP`: `crypto.randomInt(100000, 999999).toString()`.
`draw` is the value returned by the secure random source, so the codes the
generator can emit are exactly `natToDecString draw` for
`randomIntLow ≤ draw < randomIntHigh`. -/
def generateOTP (draw : Nat) : String :=
  natToDecString draw

/-! ### Concrete fixtures used by witnesses and counterexamples -/

/-- A locally-registered account used as the base of concrete store
fixtures. -/
def baseUser : User :=
  { id := 1, name := "Alice", email := "a@x.com", password := none,
    googleId := none, provider := "local", profilePicture := none,
    emailVerified := false, resetOTP := none, otpCreatedAt := none,
    otpExpiresAt := none, passwordUpdatedAt := none, createdAt := 0,
    updatedAt := 0 }

/-- A concrete stand-in for the bcrypt hashing collaborator. -/
def sampleHash (p : String) : String := p ++ "#hashed"

/-! ### Helper lemmas -/

/-- A guarded row rewrite keeps `find?` pointing at the rewritten row, as
long as the rewrite preserves the search predicate. -/
lemma find?_update_eq {s : Store} {q : User → Bool} {u : User} {f : User → User}
    (h : s.find? q = some u) (hf : q (f u) = true) :
    (s.map fun v => if q v then f v else v).find? q = some (f u) := by
  induction s with
  | nil => simp at h
  | cons v t ih =>
    by_cases hv : q v = true
    · have hv' : v = u := by
        rw [List.find?_cons_of_pos t hv] at h
        exact Option.some.inj h
      subst hv'
      simp only [List.map_cons, if_pos hv]
      exact List.find?_cons_of_pos _ hf
    · have ht : t.find? q = some u := by
        rw [List.find?_cons_of_neg t hv] at h
        exact h
      simp only [List.map_cons, if_neg hv]
      rw [List.find?_cons_of_neg _ hv]
      exact ih ht

/-- An `updateWhereEmail` succeeds exactly on an existing email, and the found
row afterwards is the rewritten one (for email-preserving rewrites). -/
lemma updateWhereEmail_found {s : Store} {email : String} {u : User} {f : User → User}
    (h : findByEmail s email = some u) (hf : (f u).email = u.email) :
    updateWhereEmail s email f =
      some (s.map fun v => if v.email == email then f v else v) ∧
    findByEmail (s.map fun v => if v.email == email then f v else v) email
      = some (f u) := by
  have hq := List.find?_some (show s.find? (fun v => v.email == email) = some u from h)
  constructor
  · simp [updateWhereEmail, h]
  · exact find?_update_eq h (by show ((f u).email == email) = true; rw [hf]; exact hq)

/-- The map `Nat.digitChar` is injective on decimal digits. -/
lemma digitChar_inj {a b : Nat} (ha : a < 10) (hb : b < 10)
    (h : Nat.digitChar a = Nat.digitChar b) : a = b := by
  interval_cases a <;> interval_cases b <;> simp_all [Nat.digitChar]

/-- Mapping `Nat.digitChar` over lists of decimal digits is injective. -/
lemma map_digitChar_inj : ∀ l₁ l₂ : List Nat, (∀ x ∈ l₁, x < 10) → (∀ x ∈ l₂, x < 10) →
    l₁.map Nat.digitChar = l₂.map Nat.digitChar → l₁ = l₂ := by
  intro l₁
  induction l₁ with
  | nil => intro l₂ _ _ h; cases l₂ <;> simp_all
  | cons a t ih =>
    intro l₂ h1 h2 h
    cases l₂ with
    | nil => simp_all
    | cons b t2 =>
      simp only [List.map_cons, List.cons.injEq] at h
      have hab : a = b := digitChar_inj (h1 a (by simp)) (h2 b (by simp)) h.1
      have := ih t2 (fun x hx => h1 x (by simp [hx])) (fun x hx => h2 x (by simp [hx])) h.2
      simp [hab, this]

/-- The decimal string of a positive natural determines the natural. -/
lemma natToDecString_inj {m n : Nat} (hm : 0 < m) (hn : 0 < n)
    (h : natToDecString m = natToDecString n) : m = n := by
  unfold natToDecString at h
  rw [if_neg (Nat.pos_iff_ne_zero.mp hm), if_neg (Nat.pos_iff_ne_zero.mp hn)] at h
  have h2 : (Nat.digits 10 m).reverse.map Nat.digitChar
      = (Nat.digits 10 n).reverse.map Nat.digitChar := by
    have := congrArg String.data h
    simpa using this
  have h3 := map_digitChar_inj _ _
    (fun x hx => Nat.digits_lt_base (by norm_num) (List.mem_reverse.mp hx))
    (fun x hx => Nat.digits_lt_base (by norm_num) (List.mem_reverse.mp hx)) h2
  have h4 : Nat.digits 10 m = Nat.digits 10 n := by
    have := congrArg List.reverse h3
    simpa using this
  exact Nat.digits_inj_iff.mp h4

/-- Naturals between `10^5` and `10^6` have a 6-character decimal string. -/
lemma natToDecString_len6 {n : Nat} (h1 : 100000 ≤ n) (h2 : n < 1000000) :
    (natToDecString n).length = 6 := by
  unfold natToDecString
  rw [if_neg (by omega)]
  have hlen : (Nat.digits 10 n).length = 6 := by
    rw [Nat.digits_len 10 n (by norm_num) (by omega)]
    have : Nat.log 10 n = 5 :=
      Nat.log_eq_of_pow_le_of_lt_pow (by norm_num; omega) (by norm_num; omega)
    omega
  simp [String.length, hlen]

/-- The value `Nat.digitChar` takes at a decimal digit is a digit character. -/
lemma digitChar_isDigit {x : Nat} (hx : x < 10) : (Nat.digitChar x).isDigit = true := by
  interval_cases x <;> decide

/-- The value `Nat.digitChar` takes at a nonzero decimal digit is not the character zero. -/
lemma digitChar_ne_zero_char {x : Nat} (hx : x < 10) (hx0 : x ≠ 0) :
    Nat.digitChar x ≠ '0' := by
  interval_cases x <;> simp_all <;> decide

/-- Every character of a decimal string is a digit character. -/
lemma natToDecString_all_digits {n : Nat} :
    ∀ c ∈ (natToDecString n).data, c.isDigit = true := by
  intro c hc
  unfold natToDecString at hc
  by_cases h : n = 0
  · simp [h] at hc
    simp [hc]
  · rw [if_neg h] at hc
    simp only [String.mk] at hc
    simp only [List.mem_map, List.mem_reverse] at hc
    obtain ⟨x, hx, rfl⟩ := hc
    exact digitChar_isDigit (Nat.digits_lt_base (by norm_num) hx)

/-- The decimal string of a positive natural has no leading zero. -/
lemma natToDecString_head_ne_zero {n : Nat} (hn : 0 < n) :
    (natToDecString n).data.head? ≠ some '0' := by
  unfold natToDecString
  rw [if_neg (Nat.pos_iff_ne_zero.mp hn)]
  have hne : Nat.digits 10 n ≠ [] := Nat.digits_ne_nil_iff_ne_zero.mpr (by omega)
  have hlast := Nat.getLast_digit_ne_zero 10 (m := n) (by omega)
  rw [show (String.mk ((Nat.digits 10 n).reverse.map Nat.digitChar)).data
        = (Nat.digits 10 n).reverse.map Nat.digitChar from rfl]
  rw [List.head?_map, List.head?_reverse]
  rw [List.getLast?_eq_getLast _ hne]
  simp only [Option.map_some']
  intro h
  have hxx : (Nat.digits 10 n).getLast hne < 10 :=
    Nat.digits_lt_base (by norm_num) (List.getLast_mem hne)
  exact digitChar_ne_zero_char hxx hlast (by simpa using h)

/-! ### Claims -/

/-- C2: `UserRepository.verifyOTP` fails in exactly the precedence
not-found → no-challenge → expired → mismatch, and succeeds otherwise; in
particular a correct code submitted strictly after `expiresAt` fails as
expired, not as a mismatch.  The source performs only a `findUnique`, so
verification never writes the store: the embedding is a pure function of the
store state. -/
theorem verifyOTP_precedence (s : Store) (email otp : String) (now : Nat) :
    (findByEmail s email = none →
      verifyOTP s email otp now = ⟨false, "User not found"⟩) ∧
    (∀ u, findByEmail s email = some u → u.resetOTP = none →
      verifyOTP s email otp now = ⟨false, "No OTP found. Please request a new one."⟩) ∧
    (∀ u stored expiresAt, findByEmail s email = some u → u.resetOTP = some stored →
      u.otpExpiresAt = some expiresAt → expiresAt < now →
      verifyOTP s email otp now = ⟨false, "OTP has expired. Please request a new one."⟩) ∧
    (∀ u stored expiresAt, findByEmail s email = some u → u.resetOTP = some stored →
      u.otpExpiresAt = some expiresAt → now ≤ expiresAt → stored ≠ otp →
      verifyOTP s email otp now = ⟨false, "Invalid OTP code. Please check and try again."⟩) ∧
    (∀ u expiresAt, findByEmail s email = some u → u.resetOTP = some otp →
      u.otpExpiresAt = some expiresAt → now ≤ expiresAt →
      verifyOTP s email otp now = ⟨true, "OTP verified successfully"⟩) := by
  refine ⟨?_, ?_, ?_, ?_, ?_⟩
  · intro h
    simp [verifyOTP, h]
  · intro u h1 h2
    simp [verifyOTP, h1, h2]
  · intro u stored expiresAt h1 h2 h3 h4
    simp [verifyOTP, h1, h2, h3, if_pos h4]
  · intro u stored expiresAt h1 h2 h3 h4 h5
    simp only [verifyOTP, h1, h2, h3]
    rw [if_neg (by omega), if_pos (by simpa [bne_iff_ne] using h5)]
  · intro u expiresAt h1 h2 h3 h4
    simp only [verifyOTP, h1, h2, h3]
    rw [if_neg (by omega), if_neg (by simp)]

/-- An account holding the challenge `123456` issued at time `0` with the
10-minute expiry window. -/
def challengedUser : User :=
  { baseUser with resetOTP := some "123456", otpCreatedAt := some 0,
                  otpExpiresAt := some 600000 }

/-- Witness for C2: the spec scenario — code issued with a 10-minute window,
verified one minute after expiry with the correct code, fails as expired. -/
theorem verifyOTP_precedence_witness :
    verifyOTP [challengedUser] "a@x.com" "123456" 660000
      = ⟨false, "OTP has expired. Please request a new one."⟩ :=
  (verifyOTP_precedence _ "a@x.com" "123456" 660000).2.2.1
    _ "123456" 600000 rfl rfl rfl (by decide)

/-- C6: a successful `UserRepository.storeOTP` leaves the account's
challenge equal to exactly the new code with `otpCreatedAt = now` and
`otpExpiresAt = now + 10 minutes`, unconditionally overwriting whatever
challenge the row held before (`u` is arbitrary), while other rows are
untouched and no row is added; hence each account carries at most the one
challenge just stored and its expiry always sits the fixed window after its
issue time. -/
theorem storeOTP_overwrites (s : Store) (email otp : String) (now : Nat) (u : User)
    (h : findByEmail s email = some u) :
    ∃ s', storeOTP s email otp now = some s' ∧
      findByEmail s' email
        = some { u with resetOTP := some otp, otpCreatedAt := some now,
                        otpExpiresAt := some (now + otpWindowMs) } ∧
      s'.length = s.length ∧
      ∀ v ∈ s, (v.email == email) = false → v ∈ s' := by
  have hpair := updateWhereEmail_found h
    (f := fun w => { w with resetOTP := some otp, otpCreatedAt := some now,
                            otpExpiresAt := some (now + otpWindowMs) }) rfl
  refine ⟨_, ?_, hpair.2, by simp, ?_⟩
  · simpa [storeOTP] using hpair.1
  · intro v hv hne
    exact List.mem_map.mpr ⟨v, hv, by simp [hne]⟩

/-- An account holding the prior challenge `111111`. -/
def priorChallengeUser : User :=
  { baseUser with resetOTP := some "111111", otpCreatedAt := some 0,
                  otpExpiresAt := some 600000 }

/-- The row expected after overwriting the prior challenge with `222222` at
time `900000`. -/
def overwrittenChallengeUser : User :=
  { priorChallengeUser with resetOTP := some "222222", otpCreatedAt := some 900000, otpExpiresAt := some (900000 + otpWindowMs) }

/-- Witness for C6: storing a fresh code over an account that already holds
an older challenge replaces it entirely. -/
theorem storeOTP_overwrites_witness :
    ∃ s', storeOTP [priorChallengeUser] "a@x.com" "222222" 900000 = some s' ∧
      findByEmail s' "a@x.com" = some overwrittenChallengeUser := by
  obtain ⟨s', h1, h2, _, _⟩ :=
    storeOTP_overwrites [priorChallengeUser] "a@x.com" "222222" 900000
      priorChallengeUser rfl
  exact ⟨s', h1, h2⟩

/-- C7: `AuthService.forgotPassword` returns the same caller-visible
`{ success, message }` for an email with an account as for an email without
one, whenever the external mail collaborator reports successful delivery of
the generated code — the uniform success response that hides account
existence. -/
theorem forgotPassword_uniform (emailSvc : String → String → EmailResult) (s : Store)
    (existingEmail missingEmail : String) (now : Nat) (u : User)
    (h1 : findByEmail s existingEmail = some u)
    (h2 : (emailSvc existingEmail u.name).success = true)
    (h3 : jsTruthy (emailSvc existingEmail u.name).otp = true)
    (h4 : findByEmail s missingEmail = none) :
    (forgotPassword emailSvc s existingEmail now).1
      = (forgotPassword emailSvc s missingEmail now).1 ∧
    (forgotPassword emailSvc s existingEmail now).1
      = ⟨true, "If an account with this email exists, you will receive a password reset OTP shortly."⟩ := by
  have hstore : (findByEmail s existingEmail).isSome = true := by simp [h1]
  constructor <;>
    simp [forgotPassword, h1, h2, h3, h4, storeOTP, updateWhereEmail, hstore]

/-- Witness for C7: with a delivering mail collaborator, the response for a
present email equals the response for an absent one. -/
theorem forgotPassword_uniform_witness :
    (forgotPassword (fun _ _ => ⟨true, some "123456"⟩) [baseUser] "a@x.com" 0).1
      = (forgotPassword (fun _ _ => ⟨true, some "123456"⟩) [baseUser] "b@x.com" 0).1 :=
  (forgotPassword_uniform (fun _ _ => ⟨true, some "123456"⟩) [baseUser]
    "a@x.com" "b@x.com" 0 baseUser rfl rfl (by decide) rfl).1

/-- C10: `AuthService.emailExists` answers exactly whether a row with that
email is in the store (returning `false` when the storage lookup throws),
and the `GET /check-email` route that exposes it carries no authentication
middleware — an unauthenticated email-existence oracle. -/
theorem emailExists_oracle (s : Store) (email : String) :
    (emailExists false s email = true ↔ ∃ u ∈ s, u.email = email) ∧
    emailExists true s email = false ∧
    (⟨"GET", "/check-email", ([] : List String)⟩ : Route) ∈ authRoutes ∧
    (∀ r ∈ authRoutes, r.path = "/check-email" → r.middlewares = []) := by
  refine ⟨?_, rfl, by decide, by decide⟩
  simp [emailExists, findByEmail, List.find?_isSome]

/-- Witness for C10: a concrete present email answers `true`, an absent one
`false`, and a faulting lookup `false`. -/
theorem emailExists_oracle_witness :
    emailExists false [baseUser] "a@x.com" = true ∧
    emailExists false [baseUser] "b@x.com" = false ∧
    emailExists true [baseUser] "a@x.com" = false := by
  refine ⟨(emailExists_oracle [baseUser] "a@x.com").1.mpr ⟨baseUser, by decide, rfl⟩,
    ?_, (emailExists_oracle [baseUser] "a@x.com").2.1⟩
  decide

/-- An OAuth-only account: present in the store but with no credential. -/
def oauthOnlyUser : User :=
  { baseUser with email := "oauth@x.com", googleId := some "g-oauth", provider := "google" }

/-- A local account with a stored credential hash. -/
def localUser : User :=
  { baseUser with id := 2, email := "local@x.com", password := some "storedhash" }

/-- The store for the login distinguishability analysis. -/
def loginStore : Store := [oauthOnlyUser, localUser]

/-- C3 counterexample: `AuthService.login` does not collapse all three
failure causes into one outward message — a login against an account with
no stored credential answers a distinct message, so an attempt against an
OAuth-only account is distinguishable from the not-found and
wrong-password attempts. -/
theorem login_counterexample :
    (login (fun _ _ => false) loginStore "missing@x.com" "pw").message
      = "Email or password is wrong" ∧
    (login (fun _ _ => false) loginStore "local@x.com" "pw").message
      = "Email or password is wrong" ∧
    (login (fun _ _ => false) loginStore "oauth@x.com" "pw").message
      = "Please sign in using Google OAuth" ∧
    "Please sign in using Google OAuth" ≠ "Email or password is wrong" := by
  decide

/-- C3 amended: the not-found and wrong-password failures of
`AuthService.login` are outwardly identical (`success = false`, message
`Email or password is wrong`), but an account without a stored credential
answers the distinct message `Please sign in using Google OAuth`, so
OAuth-only account existence remains observable. -/
theorem login_failure_messages (bcryptCompare : String → String → Bool) (s : Store)
    (email password : String) :
    (findByEmail s email = none →
      login bcryptCompare s email password = ⟨false, "Email or password is wrong"⟩) ∧
    (∀ u, findByEmail s email = some u → u.password = none →
      login bcryptCompare s email password = ⟨false, "Please sign in using Google OAuth"⟩) ∧
    (∀ u stored, findByEmail s email = some u → u.password = some stored →
      bcryptCompare password stored = false →
      login bcryptCompare s email password = ⟨false, "Email or password is wrong"⟩) := by
  refine ⟨?_, ?_, ?_⟩
  · intro h
    simp [login, h]
  · intro u h1 h2
    simp [login, h1, h2]
  · intro u stored h1 h2 h3
    simp [login, h1, h2, h3]

/-- Witness for the amended C3: the three branches at concrete inputs. -/
theorem login_failure_messages_witness :
    login (fun _ _ => false) loginStore "missing@x.com" "pw"
      = ⟨false, "Email or password is wrong"⟩ ∧
    login (fun _ _ => false) loginStore "oauth@x.com" "pw"
      = ⟨false, "Please sign in using Google OAuth"⟩ ∧
    login (fun _ _ => false) loginStore "local@x.com" "pw"
      = ⟨false, "Email or password is wrong"⟩ :=
  ⟨(login_failure_messages (fun _ _ => false) loginStore "missing@x.com" "pw").1 rfl,
   (login_failure_messages (fun _ _ => false) loginStore "oauth@x.com" "pw").2.1
     oauthOnlyUser rfl rfl,
   (login_failure_messages (fun _ _ => false) loginStore "local@x.com" "pw").2.2
     localUser "storedhash" rfl rfl rfl⟩

/-- C4 counterexample: no draw of `crypto.randomInt(100000, 999999)` yields
the 6-digit code `999999`, because Node's upper bound is exclusive — the
generator is therefore not uniform over the 900,000 six-digit values the
claim names (and leading-zero codes are likewise impossible). -/
theorem generateOTP_counterexample :
    ¬ ∃ draw, randomIntLow ≤ draw ∧ draw < randomIntHigh ∧ generateOTP draw = "999999" := by
  rintro ⟨draw, h1, h2, h3⟩
  rw [show randomIntLow = 100000 from rfl] at h1
  rw [show randomIntHigh = 999999 from rfl] at h2
  have h999 : natToDecString 999999 = "999999" := by
    norm_num [natToDecString]
    rfl
  have hd : draw = 999999 :=
    natToDecString_inj (by omega) (by norm_num)
      (show natToDecString draw = natToDecString 999999 from h999 ▸ h3)
  omega

/-- C4 amended: every code the generator can emit — `generateOTP draw` for a
draw of `crypto.randomInt(100000, 999999)`, whose upper bound is exclusive —
is a 6-character all-digit string with a nonzero leading digit (so
leading-zero codes never occur); distinct draws give distinct codes, so the
codes inherit the draw's uniform distribution over the 899,999 values
100000–999998 (not 900,000). -/
theorem generateOTP_code_properties (draw : Nat)
    (h1 : randomIntLow ≤ draw) (h2 : draw < randomIntHigh) :
    (generateOTP draw).length = 6 ∧
    (∀ c ∈ (generateOTP draw).data, c.isDigit = true) ∧
    (generateOTP draw).data.head? ≠ some '0' ∧
    (∀ draw2, randomIntLow ≤ draw2 → draw2 < randomIntHigh →
      generateOTP draw2 = generateOTP draw → draw2 = draw) ∧
    (Finset.Ico randomIntLow randomIntHigh).card = 899999 := by
  rw [show randomIntLow = 100000 from rfl] at h1
  rw [show randomIntHigh = 999999 from rfl] at h2
  refine ⟨natToDecString_len6 h1 (by omega), natToDecString_all_digits,
    natToDecString_head_ne_zero (by omega), ?_, ?_⟩
  · intro draw2 g1 g2 g3
    rw [show randomIntLow = 100000 from rfl] at g1
    exact natToDecString_inj (by omega) (by omega) g3
  · rw [show randomIntLow = 100000 from rfl, show randomIntHigh = 999999 from rfl]
    simp

/-- Witness for the amended C4: the theorem applied at the draw `123456`. -/
theorem generateOTP_code_properties_witness :
    (generateOTP 123456).length = 6 ∧ (generateOTP 123456).data.head? ≠ some '0' :=
  ⟨(generateOTP_code_properties 123456 (by decide) (by decide)).1,
   (generateOTP_code_properties 123456 (by decide) (by decide)).2.2.1⟩

/-- An account holding a valid, unexpired challenge together with an old
credential, for the reset atomicity analysis. -/
def resetReadyUser : User :=
  { baseUser with password := some "oldhash", resetOTP := some "123456",
                  otpCreatedAt := some 1000, otpExpiresAt := some 601000 }

/-- The row after the first write of `AuthService.resetPassword`
(`updatePassword`): new credential stored, challenge still present. -/
def midResetUser : User :=
  { resetReadyUser with password := some (sampleHash "newpw"), passwordUpdatedAt := some 2000 }

/-- The row after the second write (`clearOTP`): challenge cleared. -/
def finalResetUser : User :=
  { midResetUser with resetOTP := none, otpCreatedAt := none, otpExpiresAt := none }

/-- C1: evaluating `AuthService.resetPassword` on a store whose account
holds a valid, unexpired challenge, with the correct code: the transition is
two separate repository writes (`updatePassword`, then `clearOTP`), and the
middle store state — reachable between the two awaited updates — already
carries the new credential while the reset challenge is still present; only
the third state has the challenge cleared.  This exhibits the intermediate
state the claim says must not be observable. -/
theorem resetPassword_intermediate_state :
    (resetPasswordTrace sampleHash [resetReadyUser] "a@x.com" "123456" "newpw" 2000).1
      = [[resetReadyUser], [midResetUser], [finalResetUser]] ∧
    midResetUser.password = some (sampleHash "newpw") ∧
    midResetUser.resetOTP = some "123456" ∧
    finalResetUser.password = some (sampleHash "newpw") ∧
    finalResetUser.passwordUpdatedAt = some 2000 ∧
    finalResetUser.resetOTP = none ∧
    finalResetUser.otpCreatedAt = none ∧
    finalResetUser.otpExpiresAt = none ∧
    (resetPasswordTrace sampleHash [resetReadyUser] "a@x.com" "123456" "newpw" 2000).2.success
      = true := by
  decide

/-- An already-linked federated account whose profile data is stale. -/
def staleGoogleUser : User :=
  { baseUser with name := "Old Name", googleId := some "g1", provider := "google" }

/-- A fresh assertion for the already-linked account, carrying new profile
data. -/
def refreshProfile : GoogleProfile :=
  { id := "g1", displayName := "New Name", emails := ["a@x.com"], photos := ["pic.png"] }

/-- The refreshed row written by the strategy callback on an
`externalIdentityRef` match. -/
def refreshUser (u : User) (profile : GoogleProfile) (now : Nat) : User :=
  { u with name := profile.displayName, profilePicture := jsOrNull profile.photos.head?,
           emailVerified := true, updatedAt := now }

/-- C5 counterexample: the exported `findOrCreateGoogleUser` — the
resolution path behind `POST /google/success` — returns an account found by
`googleId` without refreshing anything: on a store whose linked account has
a stale name and an unconfirmed flag, resolution returns it with the store
unchanged, so name, avatar and `verifiedFlag` are not updated before the
account is returned. -/
theorem resolve_refresh_counterexample :
    (findOrCreateGoogleUser [staleGoogleUser] refreshProfile 5000).2 = [staleGoogleUser] ∧
    (findOrCreateGoogleUser [staleGoogleUser] refreshProfile 5000).1
      = .ok (mapDbUserToExpressUser staleGoogleUser) ∧
    staleGoogleUser.name = "Old Name" ∧
    refreshProfile.displayName = "New Name" ∧
    staleGoogleUser.emailVerified = false :=
  ⟨rfl, rfl, rfl, rfl, rfl⟩

/-- C5 amended: resolution is strict first-match-wins on both live paths —
when an account carries the asserted `googleId`, neither path looks up the
email or creates a row.  The registered strategy callback refreshes the
matched account's name, avatar, `verifiedFlag` and `updatedAt` and returns
it with identity (id, email, googleId, credential) unchanged; the exported
`findOrCreateGoogleUser` used by `POST /google/success` returns the matched
account as stored, without the refresh. -/
theorem resolve_first_match_wins (s : Store) (profile : GoogleProfile) (now : Nat)
    (u : User) (em : String)
    (h1 : profile.emails.head? = some em) (h2 : em.isEmpty = false)
    (h3 : profile.id.isEmpty = false)
    (h4 : findByGoogleId s profile.id = some u) :
    googleVerify true s profile now
      = (.ok (mapDbUserToExpressUser (refreshUser u profile now)),
         applyUpdateById s u.id (refreshUser u profile now)) ∧
    (applyUpdateById s u.id (refreshUser u profile now)).length = s.length ∧
    (refreshUser u profile now).name = profile.displayName ∧
    (refreshUser u profile now).profilePicture = jsOrNull profile.photos.head? ∧
    (refreshUser u profile now).emailVerified = true ∧
    (refreshUser u profile now).updatedAt = now ∧
    (refreshUser u profile now).id = u.id ∧
    (refreshUser u profile now).email = u.email ∧
    (refreshUser u profile now).googleId = u.googleId ∧
    (refreshUser u profile now).password = u.password ∧
    findOrCreateGoogleUser s profile now = (.ok (mapDbUserToExpressUser u), s) := by
  refine ⟨?_, by simp [applyUpdateById], rfl, rfl, rfl, rfl, rfl, rfl, rfl, rfl, ?_⟩
  · simp [googleVerify, h1, h2, h3, h4, refreshUser]
  · simp [findOrCreateGoogleUser, h1, h2, h3, h4]

/-- Witness for the amended C5: a googleId re-authentication at a concrete
store, on both paths. -/
theorem resolve_first_match_wins_witness :
    googleVerify true [staleGoogleUser] refreshProfile 5000
      = (.ok (mapDbUserToExpressUser (refreshUser staleGoogleUser refreshProfile 5000)),
         applyUpdateById [staleGoogleUser] staleGoogleUser.id
           (refreshUser staleGoogleUser refreshProfile 5000)) ∧
    findOrCreateGoogleUser [staleGoogleUser] refreshProfile 5000
      = (.ok (mapDbUserToExpressUser staleGoogleUser), [staleGoogleUser]) :=
  ⟨(resolve_first_match_wins [staleGoogleUser] refreshProfile 5000 staleGoogleUser
      "a@x.com" rfl rfl rfl rfl).1,
   (resolve_first_match_wins [staleGoogleUser] refreshProfile 5000 staleGoogleUser
      "a@x.com" rfl rfl rfl rfl).2.2.2.2.2.2.2.2.2.2⟩

/-- An assertion whose email matches the stored local account but whose
`googleId` is not yet linked to any row. -/
def linkProfile : GoogleProfile :=
  { id := "g9", displayName := "Alice", emails := ["local@x.com"], photos := [] }

/-- The linked row written by the strategy callback when an account is found
by email: `googleId` set, provider upgraded, flag confirmed, timestamp
refreshed — the credential field is not touched. -/
def linkUser (u : User) (profile : GoogleProfile) (now : Nat) : User :=
  { u with googleId := some profile.id, provider := "google",
           profilePicture := jsOrNull profile.photos.head?,
           emailVerified := true, updatedAt := now }

/-- The linked row written by `findOrCreateGoogleUser` (same fields except
`updatedAt`, which that function does not set). -/
def linkUserKeepTimestamp (u : User) (profile : GoogleProfile) : User :=
  { u with googleId := some profile.id, provider := "google",
           profilePicture := jsOrNull profile.photos.head?,
           emailVerified := true }

/-- C8: linking an existing account found by email sets
`externalIdentityRef` (googleId), `originKind = federated`
(`provider = 'google'`), `verifiedFlag = true` and `updatedAt`, and leaves
the stored credential hash exactly as it was, so an account registered with
a password stays dual-capable after linking.  The `findOrCreateGoogleUser`
path likewise preserves the credential. -/
theorem link_preserves_credential (s : Store) (profile : GoogleProfile) (now : Nat)
    (u : User) (em hash : String)
    (h1 : profile.emails.head? = some em) (h2 : em.isEmpty = false)
    (h3 : profile.id.isEmpty = false)
    (h4 : findByGoogleId s profile.id = none)
    (h5 : findByEmail s em = some u)
    (h6 : u.password = some hash) :
    googleVerify true s profile now
      = (.ok (mapDbUserToExpressUser (linkUser u profile now)),
         applyUpdateById s u.id (linkUser u profile now)) ∧
    (linkUser u profile now).googleId = some profile.id ∧
    (linkUser u profile now).provider = "google" ∧
    (linkUser u profile now).emailVerified = true ∧
    (linkUser u profile now).updatedAt = now ∧
    (linkUser u profile now).password = some hash ∧
    (linkUser u profile now).email = u.email ∧
    (linkUser u profile now).id = u.id ∧
    linkUser u profile now ∈ applyUpdateById s u.id (linkUser u profile now) ∧
    findOrCreateGoogleUser s profile now
      = (.ok (mapDbUserToExpressUser (linkUserKeepTimestamp u profile)),
         applyUpdateById s u.id (linkUserKeepTimestamp u profile)) ∧
    (linkUserKeepTimestamp u profile).password = some hash := by
  have hu : u ∈ s := List.mem_of_find?_eq_some h5
  refine ⟨?_, rfl, rfl, rfl, rfl, by simp [linkUser, h6], rfl, rfl, ?_, ?_,
    by simp [linkUserKeepTimestamp, h6]⟩
  · simp [googleVerify, h1, h2, h3, h4, h5, linkUser]
  · exact List.mem_map.mpr ⟨u, hu, by simp [applyUpdateById]⟩
  · simp [findOrCreateGoogleUser, h1, h2, h3, h4, h5, linkUserKeepTimestamp]

/-- Witness for C8: the spec scenario — a locally-registered account with a
credential is linked by email; the credential is still present. -/
theorem link_preserves_credential_witness :
    googleVerify true loginStore linkProfile 7000
      = (.ok (mapDbUserToExpressUser (linkUser localUser linkProfile 7000)),
         applyUpdateById loginStore localUser.id (linkUser localUser linkProfile 7000)) ∧
    (linkUser localUser linkProfile 7000).password = some "storedhash" :=
  ⟨(link_preserves_credential loginStore linkProfile 7000 localUser "local@x.com"
      "storedhash" rfl rfl rfl rfl rfl rfl).1,
   (link_preserves_credential loginStore linkProfile 7000 localUser "local@x.com"
      "storedhash" rfl rfl rfl rfl rfl rfl).2.2.2.2.2.1⟩

/-- C9: an assertion lacking an email (or carrying an empty one) or lacking
an external id makes both resolution paths fail with the
missing-information error before any store access: the returned store is
the input store, so no account is created or mutated. -/
theorem resolver_incomplete_assertion (s : Store) (profile : GoogleProfile) (now : Nat)
    (h : profile.emails.head? = none ∨
      (∃ em, profile.emails.head? = some em ∧ em.isEmpty = true) ∨
      profile.id.isEmpty = true) :
    findOrCreateGoogleUser s profile now
      = (.error "Missing required Google profile information", s) ∧
    googleVerify true s profile now
      = (.error "Missing required Google profile information", s) := by
  rcases h with h | ⟨em, hem, hemE⟩ | h
  · constructor <;> simp [findOrCreateGoogleUser, googleVerify, h]
  · constructor <;> simp [findOrCreateGoogleUser, googleVerify, hem, hemE]
  · cases he : profile.emails.head? with
    | none => constructor <;> simp [findOrCreateGoogleUser, googleVerify, he]
    | some em => constructor <;> simp [findOrCreateGoogleUser, googleVerify, he, h]

/-- An assertion with no email entries at all. -/
def noEmailProfile : GoogleProfile :=
  { id := "g1", displayName := "X", emails := [], photos := [] }

/-- Witness for C9: resolving an assertion with no email leaves the store
untouched and fails. -/
theorem resolver_incomplete_assertion_witness :
    findOrCreateGoogleUser [baseUser] noEmailProfile 0
      = (.error "Missing required Google profile information", [baseUser]) :=
  (resolver_incomplete_assertion [baseUser] noEmailProfile 0 (Or.inl rfl)).1

end AuthBackend
